import Mathlib

/-!
# Verification of couchbase-fhir-ce load-test and config-generator scripts

Shallow embedding of the Python sources under `load-tests/` and `scripts/`:
JSON/YAML values are modelled by `PyVal`, with Python truthiness, `dict.get`,
`d[k]` (KeyError), `d[k] = v`, and the `in` operator made explicit.
-/

set_option maxRecDepth 4000

/-- A Python value as produced by `json`/`yaml.safe_load`: `None`, booleans,
integers, strings, lists, and dicts (assoc lists preserving insertion order). -/
inductive PyVal where
  | pynone
  | pybool (b : Bool)
  | pyint (n : Int)
  | pystr (s : String)
  | pylist (xs : List PyVal)
  | pydict (kvs : List (String × PyVal))

def PyVal.decEq : (a b : PyVal) → Decidable (a = b)
  | .pynone, .pynone => isTrue rfl
  | .pybool a, .pybool b =>
      if h : a = b then isTrue (by rw [h])
      else isFalse (fun he => h (by injection he))
  | .pyint a, .pyint b =>
      if h : a = b then isTrue (by rw [h])
      else isFalse (fun he => h (by injection he))
  | .pystr a, .pystr b =>
      if h : a = b then isTrue (by rw [h])
      else isFalse (fun he => h (by injection he))
  | .pylist xs, .pylist ys =>
      match goList xs ys with
      | isTrue h => isTrue (by rw [h])
      | isFalse h => isFalse (fun he => h (by injection he))
  | .pydict xs, .pydict ys =>
      match goKvs xs ys with
      | isTrue h => isTrue (by rw [h])
      | isFalse h => isFalse (fun he => h (by injection he))
  | .pynone, .pybool _ => isFalse (fun h => nomatch h)
  | .pynone, .pyint _ => isFalse (fun h => nomatch h)
  | .pynone, .pystr _ => isFalse (fun h => nomatch h)
  | .pynone, .pylist _ => isFalse (fun h => nomatch h)
  | .pynone, .pydict _ => isFalse (fun h => nomatch h)
  | .pybool _, .pynone => isFalse (fun h => nomatch h)
  | .pybool _, .pyint _ => isFalse (fun h => nomatch h)
  | .pybool _, .pystr _ => isFalse (fun h => nomatch h)
  | .pybool _, .pylist _ => isFalse (fun h => nomatch h)
  | .pybool _, .pydict _ => isFalse (fun h => nomatch h)
  | .pyint _, .pynone => isFalse (fun h => nomatch h)
  | .pyint _, .pybool _ => isFalse (fun h => nomatch h)
  | .pyint _, .pystr _ => isFalse (fun h => nomatch h)
  | .pyint _, .pylist _ => isFalse (fun h => nomatch h)
  | .pyint _, .pydict _ => isFalse (fun h => nomatch h)
  | .pystr _, .pynone => isFalse (fun h => nomatch h)
  | .pystr _, .pybool _ => isFalse (fun h => nomatch h)
  | .pystr _, .pyint _ => isFalse (fun h => nomatch h)
  | .pystr _, .pylist _ => isFalse (fun h => nomatch h)
  | .pystr _, .pydict _ => isFalse (fun h => nomatch h)
  | .pylist _, .pynone => isFalse (fun h => nomatch h)
  | .pylist _, .pybool _ => isFalse (fun h => nomatch h)
  | .pylist _, .pyint _ => isFalse (fun h => nomatch h)
  | .pylist _, .pystr _ => isFalse (fun h => nomatch h)
  | .pylist _, .pydict _ => isFalse (fun h => nomatch h)
  | .pydict _, .pynone => isFalse (fun h => nomatch h)
  | .pydict _, .pybool _ => isFalse (fun h => nomatch h)
  | .pydict _, .pyint _ => isFalse (fun h => nomatch h)
  | .pydict _, .pystr _ => isFalse (fun h => nomatch h)
  | .pydict _, .pylist _ => isFalse (fun h => nomatch h)
where
  goList : (xs ys : List PyVal) → Decidable (xs = ys)
    | [], [] => isTrue rfl
    | [], _ :: _ => isFalse (fun h => nomatch h)
    | _ :: _, [] => isFalse (fun h => nomatch h)
    | a :: as, b :: bs =>
        match PyVal.decEq a b with
        | isFalse h1 => isFalse (fun he => h1 (by injection he))
        | isTrue h1 =>
            match goList as bs with
            | isTrue h2 => isTrue (by rw [h1, h2])
            | isFalse h2 => isFalse (fun he => h2 (by injection he))
  goKvs : (xs ys : List (String × PyVal)) → Decidable (xs = ys)
    | [], [] => isTrue rfl
    | [], _ :: _ => isFalse (fun h => nomatch h)
    | _ :: _, [] => isFalse (fun h => nomatch h)
    | (k1, v1) :: as, (k2, v2) :: bs =>
        if hk : k1 = k2 then
          match PyVal.decEq v1 v2 with
          | isFalse hv => isFalse (fun he => by
              injection he with hp _
              injection hp with _ hv'
              exact hv hv')
          | isTrue hv =>
              match goKvs as bs with
              | isTrue h2 => isTrue (by rw [hk, hv, h2])
              | isFalse h2 => isFalse (fun he => h2 (by injection he))
        else
          isFalse (fun he => by
            injection he with hp _
            injection hp with hk' _
            exact hk hk')

instance : DecidableEq PyVal := PyVal.decEq

namespace PyVal

/-- Python truthiness: `None`, `False`, `0`, `""`, `[]`, `{}` are falsy. -/
def truthy : PyVal → Bool
  | .pynone => false
  | .pybool b => b
  | .pyint n => n != 0
  | .pystr s => s ≠ ""
  | .pylist xs => !xs.isEmpty
  | .pydict kvs => !kvs.isEmpty

def isDict : PyVal → Bool
  | .pydict _ => true
  | _ => false

/-- Assoc-list lookup for dict keys. -/
def lookup (kvs : List (String × PyVal)) (k : String) : Option PyVal :=
  match kvs with
  | [] => Option.none
  | (k', v) :: rest => if k' = k then some v else lookup rest k

/-- Python `d.get(k)`: `None` when `d` has no key `k` (and `None` when the
receiver is not a dict; the sources only call `.get` on dicts). -/
def get (d : PyVal) (k : String) : PyVal :=
  match d with
  | .pydict kvs => (lookup kvs k).getD .pynone
  | _ => .pynone

/-- Assoc-list update: overwrite in place, or append a new key at the end
(Python dict insertion-order semantics). -/
def setKvs (kvs : List (String × PyVal)) (k : String) (v : PyVal) :
    List (String × PyVal) :=
  match kvs with
  | [] => [(k, v)]
  | (k', v') :: rest =>
      if k' = k then (k, v) :: rest else (k', v') :: setKvs rest k v

/-- Python `d[k] = v` on a dict; `TypeError` otherwise. -/
def setItem (d : PyVal) (k : String) (v : PyVal) : Except String PyVal :=
  match d with
  | .pydict kvs => .ok (.pydict (setKvs kvs k v))
  | _ => .error "TypeError: object does not support item assignment"

/-- Python `d[k]` with a string key: the value, or `KeyError`; `TypeError`
on non-dicts. -/
def getItem (d : PyVal) (k : String) : Except String PyVal :=
  match d with
  | .pydict kvs =>
      match lookup kvs k with
      | some v => .ok v
      | Option.none => .error ("KeyError: " ++ k)
  | _ => .error "TypeError: object is not subscriptable"

/-- Python `x or y`. -/
def pyOr (x y : PyVal) : PyVal := if x.truthy then x else y

/-- Python `k in d` for a string operand: dict key membership, list element
membership, substring test on strings; `TypeError` otherwise. -/
def contains (d : PyVal) (k : String) : Except String Bool :=
  match d with
  | .pydict kvs => .ok (kvs.any (fun p => p.1 = k))
  | .pylist xs => .ok (xs.any (fun v => v = .pystr k))
  | .pystr s => .ok (decide ((s.splitOn k).length ≥ 2))
  | _ => .error "TypeError: argument is not iterable"

/-- Iterating a Python value in a `for` loop; the sources only iterate lists
(anything else would raise `TypeError` at the call sites we model). -/
def iterList : PyVal → List PyVal
  | .pylist xs => xs
  | _ => []

end PyVal

/-! ## HTTP client wrapper (`load-tests/resources/client.py`)

`FHIRClient._canonical_name` and its helpers, plus the `name=` value each of
the four request methods passes to the underlying HTTP client. The Python
methods take `**_: Any`, i.e. they accept and silently drop every
caller-supplied keyword argument (including `name=...` labels). -/

/-! String helpers over `String.data` (kernel-reducible, unlike the
byte-position-based `String.dropWhile`/`splitOn`/`startsWith`):
they implement Python's `str.lstrip("/")`, `str.split("/")`,
`str.startswith(p)` and `str.lower()` for the ASCII strings used here. -/

/-- Python `s.lstrip("/")`. -/
def pyLstripSlash (s : String) : String :=
  ⟨s.data.dropWhile (fun c => c = '/')⟩

/-- Splitting a character list at a separator; `Python s.split(sep)` with a
one-character separator. -/
def splitCharList (sep : Char) : List Char → List (List Char)
  | [] => [[]]
  | c :: rest =>
      let r := splitCharList sep rest
      if c = sep then [] :: r
      else
        match r with
        | [] => [[c]]
        | h :: t => (c :: h) :: t

/-- Python `s.split("/")`. -/
def pySplitSlash (s : String) : List String :=
  (splitCharList '/' s.data).map (fun cs => ⟨cs⟩)

/-- Whether `pre` is a prefix of `cs` (Python `str.startswith`). -/
def charListStarts : List Char → List Char → Bool
  | [], _ => true
  | _ :: _, [] => false
  | p :: ps, c :: cs => p = c && charListStarts ps cs

/-- Python `s.startswith(p)`. -/
def pyStarts (p s : String) : Bool :=
  charListStarts p.data s.data

/-- Python `s.lower()` (ASCII). -/
def pyLower (s : String) : String :=
  ⟨s.data.map Char.toLower⟩

namespace FHIRClient

/-- Embeds `FHIRClient._name_for_root`: name for requests to the server root. -/
def name_for_root (body : Option PyVal) : String :=
  match body with
  | some d =>
      if d.isDict ∧ (PyVal.pyOr d (.pydict [])).get "resourceType" = .pystr "Bundle" then
        match (PyVal.pyOr d (.pydict [])).get "type" with
        | .pystr s => if s = "batch" ∨ s = "transaction" then s else "root"
        | _ => "root"
      else "root"
  | Option.none => "root"

/-- Embeds `FHIRClient._name_for_type`: name for `/{Resource}` requests. -/
def name_for_type (method resource : String) : String :=
  if method = "GET" then resource ++ " search"
  else if method = "POST" then resource ++ " create"
  else resource ++ " " ++ pyLower method

/-- Embeds `FHIRClient._name_for_instance`: name for `/{Resource}/{id}` requests. -/
def name_for_instance (method resource : String) : String :=
  if method = "GET" then resource ++ " by id"
  else if method = "PUT" then resource ++ " update"
  else if method = "PATCH" then resource ++ " patch"
  else if method = "DELETE" then resource ++ " delete"
  else resource ++ " " ++ pyLower method ++ " by id"

/-- Embeds `FHIRClient._name_for_instance_subpath`: name for
`/{Resource}/{id}/{subpath}` requests. -/
def name_for_instance_subpath (method resource subpath : String) : String :=
  if pyStarts "$" subpath then resource ++ " instance operation " ++ subpath
  else if pyStarts "_history" subpath then resource ++ " history"
  else resource ++ " " ++ pyLower method

/-- Embeds `FHIRClient._canonical_name`: the stable per-request metric name, a
function of the method, the path shape, and (for root requests) the body. -/
def canonical_name (method path : String) (body : Option PyVal) : String :=
  let normalized := pyLstripSlash path
  if normalized = "" then name_for_root body
  else if normalized = "metadata" then "capability statement"
  else
    let parts := pySplitSlash normalized
    let first := parts.headD ""
    if pyStarts "$" first then "system operation " ++ first
    else
      let resource := pyLower first
      if parts.length = 1 then name_for_type method resource
      else if pyStarts "$" (parts.getD 1 "") then
        resource ++ " operation " ++ parts.getD 1 ""
      else if parts.length = 2 then name_for_instance method resource
      else name_for_instance_subpath method resource (parts.getD 2 "")

/-- The `name=` value `FHIRClient.get` hands to `self.http.get`; the method's
`params` and swallowed keyword arguments (`**_`) are never consulted. -/
def get_name (path : String) (_params : PyVal)
    (_kwargs : List (String × PyVal)) : String :=
  canonical_name "GET" path Option.none

/-- The `name=` value `FHIRClient.post` hands to `self.http.post`. -/
def post_name (path : String) (body : PyVal)
    (_kwargs : List (String × PyVal)) : String :=
  canonical_name "POST" path (some body)

/-- The `name=` value `FHIRClient.put` hands to `self.http.put`. -/
def put_name (path : String) (body : PyVal)
    (_kwargs : List (String × PyVal)) : String :=
  canonical_name "PUT" path (some body)

/-- The `name=` value `FHIRClient.patch` hands to `self.http.patch`. -/
def patch_name (path : String) (body : PyVal)
    (_kwargs : List (String × PyVal)) : String :=
  canonical_name "PATCH" path (some body)

end FHIRClient

/-! ## Config generator (`scripts/generate.py`) -/

/-- Substring test (Python `needle in hay` on strings). -/
def charListHasSub (needle : List Char) : List Char → Bool
  | [] => needle.isEmpty
  | c :: t => charListStarts needle (c :: t) || charListHasSub needle t

/-- Python `needle in hay` for strings. -/
def pySubstr (needle hay : String) : Bool :=
  charListHasSub needle.data hay.data

/-- The `scheme`/`netloc` components of `urllib.parse.urlparse`, the only
two components `auto_detect_ports` reads. -/
structure UrlParts where
  scheme : String
  netloc : String

/-- Splits `cs` at the first occurrence of `"://"`. -/
def splitSchemeSep : List Char → Option (List Char × List Char)
  | [] => Option.none
  | ':' :: '/' :: '/' :: rest => some ([], rest)
  | c :: rest => (splitSchemeSep rest).map (fun p => (c :: p.1, p.2))

/-- Model of `urllib.parse.urlparse` for absolute `scheme://netloc[/...]`
URLs: the scheme is the (lowercased) text before `"://"`, the netloc the
text after it up to the first `/`, `?` or `#`. URLs without `"://"` have an
empty scheme and netloc. -/
def urlparse (url : String) : UrlParts :=
  match splitSchemeSep url.data with
  | some (sch, rest) =>
      ⟨pyLower ⟨sch⟩, ⟨rest.takeWhile (fun c => c ≠ '/' && c ≠ '?' && c ≠ '#')⟩⟩
  | Option.none => ⟨"", ""⟩

/-- Embeds `auto_detect_ports` from `scripts/generate.py`: derive the
`(http, https)` host ports from `app.baseUrl`. -/
def auto_detect_ports (base_url : String) : Nat × Nat :=
  let parsed := urlparse base_url
  if parsed.scheme = "https" then (80, 443)
  else if pySubstr "localhost" parsed.netloc || pySubstr "127.0.0.1" parsed.netloc then
    if pySubstr ":8080" parsed.netloc then (8080, 8443) else (80, 443)
  else (80, 443)

/-- The TLS block of `deploy` in `config.yaml`: `enabled` (used for its
truthiness) and the optional `pemPath` (`deploy['tls'].get('pemPath', ...)`). -/
structure TlsConfig where
  enabled : Bool
  pemPath : Option String

/-- The fields of `config.yaml` that `generate.py` reads after validation.
Scalar settings are the YAML strings the script's own `config.yaml` uses
(`baseUrl`, memory sizes, JVM heap sizes). `env_overrides` is
`deploy['environment']['overrides']` when `'overrides' in
deploy.get('environment', {})`, else absent. -/
structure Config where
  baseUrl : String
  tls : TlsConfig
  mem_limit : String
  mem_reservation : String
  xms : String
  xmx : String
  env_overrides : Option (List (String × PyVal))

/-- Embeds `generate_docker_compose` from `scripts/generate.py`. The two
`.append` calls guarded by `if tls_enabled:` are rendered as conditional
list construction of the haproxy `ports`/`volumes` entries. -/
def generate_docker_compose (config : Config) : PyVal :=
  let ports := auto_detect_ports config.baseUrl
  let http_port := ports.1
  let https_port := ports.2
  let tls_enabled := config.tls.enabled
  let env0 : List (String × PyVal) :=
    [("JAVA_TOOL_OPTIONS", .pystr ("-Xms" ++ config.xms ++ " -Xmx" ++ config.xmx
        ++ " -XX:+UseG1GC -XX:MaxGCPauseMillis=200"))]
  let env : List (String × PyVal) :=
    match config.env_overrides with
    | some overrides => overrides.foldl (fun acc p => PyVal.setKvs acc p.1 p.2) env0
    | Option.none => env0
  let pem_path := config.tls.pemPath.getD "./certs/server.pem"
  .pydict [("services", .pydict [
    ("fhir-server", .pydict [
      ("build", .pydict [("context", .pystr "./backend"), ("dockerfile", .pystr "Dockerfile")]),
      ("image", .pystr "ghcr.io/couchbaselabs/couchbase-fhir-ce/fhir-server:latest"),
      ("container_name", .pystr "fhir-server"),
      ("environment", .pydict env),
      ("volumes", .pylist [.pystr "./config.yaml:/config.yaml:ro", .pystr "./logs:/app/logs"]),
      ("restart", .pystr "unless-stopped"),
      ("deploy", .pydict [("resources", .pydict [
        ("limits", .pydict [("memory", .pystr config.mem_limit)]),
        ("reservations", .pydict [("memory", .pystr config.mem_reservation)])])]),
      ("logging", .pydict [("driver", .pystr "json-file"),
        ("options", .pydict [("max-size", .pystr "50m"), ("max-file", .pystr "3")])])]),
    ("fhir-admin", .pydict [
      ("build", .pydict [("context", .pystr "./frontend"), ("dockerfile", .pystr "Dockerfile")]),
      ("image", .pystr "ghcr.io/couchbaselabs/couchbase-fhir-ce/fhir-admin:latest"),
      ("container_name", .pystr "fhir-admin"),
      ("restart", .pystr "unless-stopped"),
      ("deploy", .pydict [("resources", .pydict [
        ("limits", .pydict [("memory", .pystr "512m")]),
        ("reservations", .pydict [("memory", .pystr "256m")])])])]),
    ("haproxy", .pydict [
      ("image", .pystr "haproxy:2.8-alpine"),
      ("container_name", .pystr "haproxy"),
      ("ports", .pylist ([.pystr (toString http_port ++ ":80")]
        ++ (if tls_enabled then [.pystr (toString https_port ++ ":443")] else []))),
      ("volumes", .pylist ([.pystr "./haproxy.cfg:/usr/local/etc/haproxy/haproxy.cfg:ro"]
        ++ (if tls_enabled then [.pystr (pem_path ++ ":/etc/haproxy/certs/server.pem:ro")] else []))),
      ("restart", .pystr "unless-stopped"),
      ("depends_on", .pylist [.pystr "fhir-server", .pystr "fhir-admin"])])])]

/-- The required top-level keys of `config.yaml`. -/
def required_fields : List String := ["app", "couchbase", "admin", "deploy"]

/-- The validation loop of `load_config`: raise `ValueError` at the first
missing required field, in order. -/
def check_required (fields : List String) (config : PyVal) : Except String Unit :=
  match fields with
  | [] => .ok ()
  | f :: rest => do
      let present ← config.contains f
      if !present then .error ("ValueError: Missing required field: " ++ f)
      else check_required rest config

/-- Embeds `load_config` from `scripts/generate.py`, after the YAML parse: validate
the required top-level keys and return the config unchanged. -/
def load_config (config : PyVal) : Except String PyVal := do
  check_required required_fields config
  pure config

/-- Python `str` extraction; `TypeError` on other values. -/
def PyVal.asStr : PyVal → Except String String
  | .pystr s => .ok s
  | _ => .error "TypeError: expected str"

/-- The field accesses `main` and `generate_docker_compose` /
`generate_haproxy_config` perform on the loaded config
(`config['app']['baseUrl']`, `config['deploy']['tls']['enabled']`, ...);
any `KeyError`/`TypeError` they raise propagates to `main`'s handler. -/
def config_of_py (config : PyVal) : Except String Config := do
  let app ← config.getItem "app"
  let baseUrl ← (← app.getItem "baseUrl").asStr
  let deploy ← config.getItem "deploy"
  let tls ← deploy.getItem "tls"
  let enabled ← tls.getItem "enabled"
  let container ← deploy.getItem "container"
  let mem_limit ← (← container.getItem "mem_limit").asStr
  let mem_reservation ← (← container.getItem "mem_reservation").asStr
  let jvm ← deploy.getItem "jvm"
  let xms ← (← jvm.getItem "xms").asStr
  let xmx ← (← jvm.getItem "xmx").asStr
  let environment := deploy.get "environment"
  let envDict := PyVal.pyOr environment (.pydict [])
  let hasOverrides ← envDict.contains "overrides"
  let env_overrides ←
    if hasOverrides then do
      let ov ← (← deploy.getItem "environment").getItem "overrides"
      match ov with
      | .pydict kvs => pure (some kvs)
      | _ => Except.error "TypeError: overrides is not a mapping"
    else pure Option.none
  let pemPath :=
    match (PyVal.pyOr tls (.pydict [])).get "pemPath" with
    | .pystr s => some s
    | _ => Option.none
  pure ⟨baseUrl, ⟨enabled.truthy, pemPath⟩, mem_limit, mem_reservation, xms, xmx, env_overrides⟩

/-- The body of `main`'s `try:` block, from `load_config` through the two
generators; file writes are modelled as succeeding. -/
def main_try_body (config : PyVal) : Except String PyVal := do
  let c ← load_config config
  let cfg ← config_of_py c
  pure (generate_docker_compose cfg)

/-- Embeds `main` from `scripts/generate.py` as an exit code: usage error without a
config argument, `1` when the `try:` body raises (the handler prints the
exception), `0` otherwise. `config` is the parsed content of the file named
by `argv[1]`. -/
def main_exit (argv : List String) (config : PyVal) : Nat :=
  if argv.length < 2 then 1
  else
    match main_try_body config with
    | .ok _ => 0
    | .error _ => 1

/-! ## Keycloak insertion script (`scripts/keycloak/insert_keycloak_compose.py`) -/

/-- The `KEYCLOAK_SERVICE` template dict. -/
def KEYCLOAK_SERVICE : PyVal := .pydict [
  ("image", .pystr "quay.io/keycloak/keycloak:24.0.1"),
  ("environment", .pydict [
    ("KEYCLOAK_ADMIN", .pystr "${KEYCLOAK_ADMIN_USERNAME}"),
    ("KEYCLOAK_ADMIN_PASSWORD", .pystr "${KEYCLOAK_ADMIN_PASSWORD}"),
    ("KC_IMPORT", .pystr "true"),
    ("KC_HEALTH_ENABLED", .pystr "true")]),
  ("ports", .pylist [.pystr "8081:8080"]),
  ("command", .pystr "start-dev --http-relative-path=/auth"),
  ("restart", .pystr "unless-stopped"),
  ("volumes", .pylist [.pystr "./scripts/keycloak/realm.json:/opt/keycloak/data/import/realm.json:ro"])]

/-- The `KEYCLOAK_*` environment variables `os.getenv` reads in
`process_file`; `Option.none` models an unset variable (Python `None`). -/
structure KcEnv where
  realm : Option String
  admin_username : Option String
  admin_password : Option String
  client_id : Option String
  client_secret : Option String

/-- An `os.getenv` result as a Python value. -/
def pyOfEnv : Option String → PyVal
  | some s => .pystr s
  | Option.none => .pynone

/-- An `os.getenv` result inside an f-string (`None` prints as `"None"`). -/
def strOfEnv : Option String → String
  | some s => s
  | Option.none => "None"

/-- Python `isinstance(v, list)`. -/
def PyVal.isList : PyVal → Bool
  | .pylist _ => true
  | _ => false

/-- Python `xs.append(v)` on a list; `TypeError` otherwise (never hit in
`process_file`, which guards with `isinstance(..., list)`). -/
def PyVal.appendItem (v : PyVal) : PyVal → Except String PyVal
  | .pylist xs => .ok (.pylist (xs ++ [v]))
  | _ => .error "TypeError: not a list"

/-- The seven `services['fhir-server']['environment'][...] = ...`
assignments of the `isinstance(..., dict)` branch of `process_file`. -/
def patch_fhir_env_dict (env : KcEnv) (envV : PyVal) : Except String PyVal := do
  let e ← envV.setItem "KEYCLOAK_JWKS_URI"
    (.pystr "http://keycloak:8080/auth/realms/fhir/protocol/openid-connect/certs")
  let e ← e.setItem "KEYCLOAK_URL" (.pystr "http://keycloak:8080/auth")
  let e ← e.setItem "KEYCLOAK_REALM" (pyOfEnv env.realm)
  let e ← e.setItem "KEYCLOAK_ADMIN_USERNAME" (pyOfEnv env.admin_username)
  let e ← e.setItem "KEYCLOAK_ADMIN_PASSWORD" (pyOfEnv env.admin_password)
  let e ← e.setItem "KEYCLOAK_CLIENT_ID" (pyOfEnv env.client_id)
  e.setItem "KEYCLOAK_CLIENT_SECRET" (pyOfEnv env.client_secret)

/-- The seven `.append(...)` calls of the `isinstance(..., list)` branch of
`process_file` (f-strings of unset variables print `None`). -/
def patch_fhir_env_list (env : KcEnv) (envV : PyVal) : Except String PyVal := do
  let e ← envV.appendItem
    (.pystr "KEYCLOAK_JWKS_URI=http://keycloak:8080/auth/realms/fhir/protocol/openid-connect/certs")
  let e ← e.appendItem (.pystr "KEYCLOAK_URL=http://keycloak:8080/auth")
  let e ← e.appendItem (.pystr ("KEYCLOAK_REALM=\"" ++ strOfEnv env.realm ++ "\""))
  let e ← e.appendItem (.pystr ("KEYCLOAK_ADMIN_USERNAME=\"" ++ strOfEnv env.admin_username ++ "\""))
  let e ← e.appendItem (.pystr ("KEYCLOAK_ADMIN_PASSWORD=\"" ++ strOfEnv env.admin_password ++ "\""))
  let e ← e.appendItem (.pystr ("KEYCLOAK_CLIENT_ID=\"" ++ strOfEnv env.client_id ++ "\""))
  e.appendItem (.pystr ("KEYCLOAK_CLIENT_SECRET=\"" ++ strOfEnv env.client_secret ++ "\""))

/-- The updates `process_file` makes to the `services['fhir-server']` dict
(aliased in-place mutation threaded explicitly): `depends_on`, the default
`environment` mapping, and the dict/list environment patches. -/
def patch_fhir_server (env : KcEnv) (fhir0 : PyVal) : Except String PyVal := do
  -- `services['fhir-server']['depends_on'] = ["keycloak"]`
  let fhir ← fhir0.setItem "depends_on" (.pylist [.pystr "keycloak"])
  -- `if not 'environment' in services['fhir-server']: ... = {}`
  let envHas ← fhir.contains "environment"
  let fhir ← if !envHas then fhir.setItem "environment" (.pydict []) else pure fhir
  -- `if isinstance(services['fhir-server']['environment'], dict): ...`
  let envV ← fhir.getItem "environment"
  let fhir ←
    if envV.isDict then do
      fhir.setItem "environment" (← patch_fhir_env_dict env envV)
    else pure fhir
  -- `if isinstance(services['fhir-server']['environment'], list): ...`
  let envV2 ← fhir.getItem "environment"
  if envV2.isList then do
    fhir.setItem "environment" (← patch_fhir_env_list env envV2)
  else pure fhir

/-- The insertion branch of `process_file`, reached when `'keycloak'` is not
yet in `services`: add the keycloak service, point `fhir-server` at it, and
write the result back (`data['services']` aliasing threaded explicitly). -/
def insert_keycloak_into (env : KcEnv) (services0 data0 : PyVal) :
    Except String (Bool × PyVal) := do
  -- `services['keycloak'] = KEYCLOAK_SERVICE`
  let services ← services0.setItem "keycloak" KEYCLOAK_SERVICE
  -- `services['fhir-server']` (unconditional: raises `KeyError` if absent)
  let fhir0 ← services.getItem "fhir-server"
  let fhir ← patch_fhir_server env fhir0
  let services ← services.setItem "fhir-server" fhir
  let data ← data0.setItem "services" services
  pure (true, data)

/-- Embeds `data = yaml.safe_load(content) or ∅` followed by
`if not isinstance(data, dict): data = {}` in `process_file`. -/
def norm_data (parsed : PyVal) : PyVal :=
  let data0 := PyVal.pyOr parsed (.pydict [])
  if data0.isDict then data0 else PyVal.pydict []

/-- Embeds `process_file` from `insert_keycloak_compose.py`, on the parsed YAML of
one compose file. Mutation of the aliased `services` /
`services['fhir-server']` dicts is threaded explicitly (each in-place
update is written back into its parent). The backup and the final
`yaml.safe_dump` write are modelled as succeeding; a raised exception
(`KeyError`/`TypeError`) is `Except.error`, which crashes the script. -/
def process_file (env : KcEnv) (parsed : PyVal) : Except String (Bool × PyVal) := do
  let data1 := norm_data parsed
  -- `services = data.get('services')`; insert `{}` when `None`
  let sv0 := data1.get "services"
  let (services, data) ←
    if sv0 = .pynone then do
      let d ← data1.setItem "services" (.pydict [])
      pure (PyVal.pydict [], d)
    else pure (sv0, data1)
  -- `if 'keycloak' in services: return True` (file untouched)
  let kc ← services.contains "keycloak"
  if kc then
    pure (true, data)
  else
    insert_keycloak_into env services data

/-- A parsed compose mapping whose `services` value already contains the
key `"keycloak"` (Python `'keycloak' in services` on a present, non-`None`
`services`). -/
def services_has_keycloak (p : PyVal) : Prop :=
  p.isDict = true ∧ p.get "services" ≠ .pynone
    ∧ (p.get "services").contains "keycloak" = .ok true

/-- Whether a dict value has the given key (`False` on non-dicts). -/
def PyVal.hasKey (d : PyVal) (k : String) : Bool :=
  match d with
  | .pydict kvs => kvs.any (fun p => p.1 = k)
  | _ => false

/-- The `services` value `process_file` ends up operating on: the parsed
mapping's `services`, or a fresh `{}` when absent/`None`. -/
def norm_services (parsed : PyVal) : PyVal :=
  if (norm_data parsed).get "services" = .pynone then .pydict []
  else (norm_data parsed).get "services"

/-- All `KEYCLOAK_*` variables unset. -/
def kcEnvW : KcEnv := ⟨Option.none, Option.none, Option.none, Option.none, Option.none⟩

/-- A compose mapping that already has a keycloak service. -/
def kcParsedW : PyVal :=
  .pydict [("services", .pydict [("keycloak", .pydict []), ("fhir-server", .pydict [])])]

/-- A compose mapping whose services lack both `keycloak` and
`fhir-server`. -/
def kcNoFhirW : PyVal := .pydict [("services", .pydict [("web", .pydict [])])]

/-! ## IOP fetcher (`load-tests/data_entry/iop.py`) and patient batch merge
(`load-tests/resources/patient.py`)

The HTTP layer is abstracted as a function from GET requests to responses;
`fetch_iop` is modelled to return both the requests it issued (in order) and
its Python return value, so that "returns the first bundle as-is" and "only
otherwise falls back" are statable. -/

def FORM_TAG_SYSTEM : String := "https://medblocks.dev/fhir/form"
def FORM_CODE_IOP : String := "iop"

/-- A GET request issued through the client: resource path and params. -/
structure GetRequest where
  path : String
  params : PyVal
  deriving DecidableEq

/-- A response as `_resp_json` sees it: the `ok` flag and the result of
`.json()` (which may raise). -/
structure HTTPResp where
  ok : Bool
  json : Except String PyVal

/-- The server/client composite: what each GET returns (`Option.none`
models a `None` response object). -/
def Server : Type := GetRequest → Option HTTPResp

/-- Embeds `_resp_json` from `data_entry/iop.py`. -/
def resp_json (resp : Option HTTPResp) : Option PyVal :=
  match resp with
  | Option.none => Option.none
  | some r =>
      if !r.ok then Option.none
      else
        match r.json with
        | .error _ => Option.none
        | .ok v => some (PyVal.pyOr v (.pydict []))

/-- Truthiness of an `Optional[dict]` (`if bundle:`). -/
def optTruthy : Option PyVal → Bool
  | Option.none => false
  | some v => v.truthy

/-- Embeds the expression `_resp_json(...) or ∅` (empty dict). -/
def or_empty : Option PyVal → PyVal
  | some v => PyVal.pyOr v (.pydict [])
  | Option.none => .pydict []

/-- Whether `if encounter_id:` adds the encounter filter (truthy string). -/
def encTruthy : Option String → Bool
  | some e => e ≠ ""
  | Option.none => false

/-- The params of the List-anchor query in `fetch_iop`. -/
def iop_list_params (pid : String) (encounter_id : Option String) : PyVal :=
  .pydict ([("subject", .pystr ("Patient/" ++ pid)),
    ("code", .pystr (FORM_TAG_SYSTEM ++ "|" ++ FORM_CODE_IOP)),
    ("_include", .pylist [.pystr "List:item"]),
    ("_count", .pyint 50)] ++
    (match encounter_id with
     | some e => if e ≠ "" then [("encounter", .pystr ("Encounter/" ++ e))] else []
     | Option.none => []))

/-- The params of the tag-based fallback queries in `fetch_iop`. -/
def iop_tag_params (pid : String) (encounter_id : Option String) : PyVal :=
  .pydict ([("subject", .pystr ("Patient/" ++ pid)),
    ("_tag", .pystr (FORM_TAG_SYSTEM ++ "|" ++ FORM_CODE_IOP)),
    ("_count", .pyint 50)] ++
    (match encounter_id with
     | some e => if e ≠ "" then [("encounter", .pystr ("Encounter/" ++ e))] else []
     | Option.none => []))

/-- One fallback loop of `fetch_iop`: the `{"resource": res}` wrappers for
every entry of the bundle that is a dict with a truthy `"resource"`. -/
def collect_entries (b : PyVal) : List PyVal :=
  (PyVal.pyOr (b.get "entry") (.pylist [])).iterList.filterMap (fun e =>
    let res := if e.isDict then e.get "resource" else PyVal.pynone
    if res.truthy then some (.pydict [("resource", res)]) else Option.none)

/-- Embeds `fetch_iop` from `data_entry/iop.py`, returning the ordered trace of the
GET requests it issued together with its return value. -/
def fetch_iop (server : Server) (patient_id : String)
    (encounter_id : Option String) : List GetRequest × Option PyVal :=
  let pid := patient_id
  let listReq : GetRequest := ⟨"List", iop_list_params pid encounter_id⟩
  let bundle := resp_json (server listReq)
  if optTruthy bundle then ([listReq], bundle)
  else
    let qrReq : GetRequest := ⟨"QuestionnaireResponse", iop_tag_params pid encounter_id⟩
    let qr_bundle := or_empty (resp_json (server qrReq))
    let obsReq : GetRequest := ⟨"Observation", iop_tag_params pid encounter_id⟩
    let obs_bundle := or_empty (resp_json (server obsReq))
    let entries := collect_entries qr_bundle ++ collect_entries obs_bundle
    if !entries.isEmpty then
      ([listReq, qrReq, obsReq],
        some (.pydict [("resourceType", .pystr "Bundle"), ("type", .pystr "collection"),
          ("entry", .pylist entries)]))
    else ([listReq, qrReq, obsReq], some (PyVal.pyOr qr_bundle obs_bundle))

/-- The parsed bundle of the fallback QuestionnaireResponse search
(`qr_bundle` in `fetch_iop`). -/
def iop_fallback_qr_bundle (server : Server) (pid : String)
    (enc : Option String) : PyVal :=
  or_empty (resp_json (server ⟨"QuestionnaireResponse", iop_tag_params pid enc⟩))

/-- The parsed bundle of the fallback Observation search
(`obs_bundle` in `fetch_iop`). -/
def iop_fallback_obs_bundle (server : Server) (pid : String)
    (enc : Option String) : PyVal :=
  or_empty (resp_json (server ⟨"Observation", iop_tag_params pid enc⟩))

/-- The patient id under which `_process_bundle_entries` dedups an entry:
`((e or {}).get("resource") or {}).get("id")`. -/
def entry_pid (e : PyVal) : PyVal :=
  (PyVal.pyOr ((PyVal.pyOr e (.pydict [])).get "resource") (.pydict [])).get "id"

/-- The loop body of `_process_bundle_entries` over one inner bundle's
entries, threading `(merged_entries, seen_ids)`. `.get` on a non-dict value
is modelled as `None` (Python would raise `AttributeError` there; the
batch responses merged here contain dict entries). -/
def pbe_go : List PyVal → List PyVal → List PyVal → List PyVal × List PyVal
  | [], merged, seen => (merged, seen)
  | e :: rest, merged, seen =>
      let res_patient := PyVal.pyOr ((PyVal.pyOr e (.pydict [])).get "resource") (.pydict [])
      if res_patient.get "resourceType" = .pystr "Patient" then
        let pid := res_patient.get "id"
        if pid.truthy ∧ pid ∉ seen then pbe_go rest (merged ++ [e]) (seen ++ [pid])
        else pbe_go rest merged seen
      else pbe_go rest merged seen

/-- Embeds `_process_bundle_entries` from `resources/patient.py`. -/
def process_bundle_entries (res : PyVal) (merged seen : List PyVal) :
    List PyVal × List PyVal :=
  pbe_go (PyVal.pyOr (res.get "entry") (.pylist [])).iterList merged seen

/-- The outer loop of `_extract_patient_entries` over the batch response's
entries. -/
def epe_go : List PyVal → List PyVal → List PyVal → List PyVal
  | [], merged, _ => merged
  | entry :: rest, merged, seen =>
      let res := PyVal.pyOr ((PyVal.pyOr entry (.pydict [])).get "resource") (.pydict [])
      if res.get "resourceType" = .pystr "Bundle" then
        let p := process_bundle_entries res merged seen
        epe_go rest p.1 p.2
      else epe_go rest merged seen

/-- Embeds `_extract_patient_entries` from `resources/patient.py`: merge the
Patient entries of the inner searchset bundles of a batch response, keeping
the first entry per patient id. -/
def extract_patient_entries (batch_response : PyVal) : List PyVal :=
  epe_go (PyVal.pyOr (batch_response.get "entry") (.pylist [])).iterList [] []

/-- A minimal valid config with TLS disabled. -/
def cfgNoTls : Config :=
  ⟨"http://localhost", ⟨false, Option.none⟩, "4g", "2g", "1g", "2g", Option.none⟩
/-- A server for which the List-anchor query parses to `{}` (falsy), the
fallback QuestionnaireResponse search returns one searchset entry carrying a
`fullUrl` alongside its resource, and the Observation search returns a
bundle without entries. -/
def cexServerC1 : Server := fun r =>
  if r.path = "List" then some ⟨true, .ok (.pydict [])⟩
  else if r.path = "QuestionnaireResponse" then
    some ⟨true, .ok (.pydict [("resourceType", .pystr "Bundle"),
      ("entry", .pylist [.pydict [("fullUrl", .pystr "urn:uuid:u1"),
        ("resource", .pydict [("resourceType", .pystr "QuestionnaireResponse"),
          ("id", .pystr "q1")])]])])⟩
  else some ⟨true, .ok (.pydict [("resourceType", .pystr "Bundle")])⟩
/-- A server for which the List query fails (`None` response), the fallback
QuestionnaireResponse search parses to a truthy bundle with no entries, and
the Observation search parses to a different truthy bundle with no
entries. -/
def cexServerC3 : Server := fun r =>
  if r.path = "List" then Option.none
  else if r.path = "QuestionnaireResponse" then
    some ⟨true, .ok (.pydict [("resourceType", .pystr "Bundle"), ("total", .pyint 0)])⟩
  else some ⟨true, .ok (.pydict [("resourceType", .pystr "Bundle"), ("id", .pystr "obs")])⟩
/-!
# Lemmas and theorems
-/

lemma except_bind_ok {α β : Type} (a : α) (f : α → Except String β) :
    (Except.ok a >>= f) = f a := rfl

lemma except_bind_err {α β : Type} (e : String) (f : α → Except String β) :
    ((Except.error e : Except String α) >>= f) = Except.error e := rfl

lemma except_pure {α : Type} (a : α) :
    (pure a : Except String α) = Except.ok a := rfl

lemma except_pure' {α : Type} (a : α) :
    (Except.pure a : Except String α) = Except.ok a := rfl

lemma lookup_setKvs_self (kvs : List (String × PyVal)) (k : String) (v : PyVal) :
    PyVal.lookup (PyVal.setKvs kvs k v) k = some v := by
  induction kvs with
  | nil => simp [PyVal.setKvs, PyVal.lookup]
  | cons p rest ih =>
      obtain ⟨k', v'⟩ := p
      by_cases h : k' = k <;> simp [PyVal.setKvs, PyVal.lookup, h, ih]

lemma setKvs_any_self (kvs : List (String × PyVal)) (k : String) (v : PyVal) :
    (PyVal.setKvs kvs k v).any (fun p => p.1 = k) = true := by
  induction kvs with
  | nil => simp [PyVal.setKvs]
  | cons p rest ih =>
      obtain ⟨k', v'⟩ := p
      by_cases h : k' = k <;> simp [PyVal.setKvs, h, ih]

lemma setKvs_any_ne (kvs : List (String × PyVal)) (k k' : String) (v : PyVal)
    (h : k ≠ k') :
    (PyVal.setKvs kvs k' v).any (fun p => p.1 = k) = kvs.any (fun p => p.1 = k) := by
  induction kvs with
  | nil => simp [PyVal.setKvs, Ne.symm h]
  | cons p rest ih =>
      obtain ⟨k'', v''⟩ := p
      by_cases hk : k'' = k' <;> simp [PyVal.setKvs, hk, ih, Ne.symm h]

lemma lookup_eq_none_of_any_false (kvs : List (String × PyVal)) (k : String)
    (h : kvs.any (fun p => p.1 = k) = false) :
    PyVal.lookup kvs k = Option.none := by
  induction kvs with
  | nil => rfl
  | cons p rest ih =>
      obtain ⟨k', v'⟩ := p
      simp only [List.any_cons, Bool.or_eq_false_iff, decide_eq_false_iff_not] at h
      simp [PyVal.lookup, h.1, ih h.2]

/-- Any successful `insert_keycloak_into` produced a dict whose `services`
is a dict containing `"keycloak"`, and reported `True`. -/
lemma insert_keycloak_into_ok (env : KcEnv) (s d : PyVal) (b : Bool) (p' : PyVal)
    (h : insert_keycloak_into env s d = .ok (b, p')) :
    b = true ∧ services_has_keycloak p' := by
  cases s with
  | pydict skvs =>
      simp only [insert_keycloak_into, PyVal.setItem, except_bind_ok] at h
      cases hlf : PyVal.lookup (PyVal.setKvs skvs "keycloak" KEYCLOAK_SERVICE) "fhir-server" with
      | none => rw [PyVal.getItem] at h; rw [hlf] at h; simp [except_bind_err] at h
      | some fhir0 =>
          rw [PyVal.getItem] at h; rw [hlf] at h
          rw [except_bind_ok] at h
          cases hpf : patch_fhir_server env fhir0 with
          | error e => rw [hpf, except_bind_err] at h; exact absurd h (by simp)
          | ok fhir =>
              rw [hpf, except_bind_ok] at h
              cases d with
              | pydict dkvs =>
                  simp only [PyVal.setItem, except_bind_ok, pure] at h
                  have hinj := Except.ok.inj h
                  rw [Prod.mk.injEq] at hinj
                  obtain ⟨hb, hp⟩ := hinj
                  refine ⟨hb.symm, ?_⟩
                  rw [← hp]
                  refine ⟨rfl, ?_, ?_⟩
                  · simp [PyVal.get, lookup_setKvs_self]
                  · simp only [PyVal.get, lookup_setKvs_self, Option.getD_some,
                      PyVal.contains]
                    rw [setKvs_any_ne _ _ _ _ (by decide), setKvs_any_self]
              | pynone => simp [PyVal.setItem, except_bind_err] at h
              | pybool x => simp [PyVal.setItem, except_bind_err] at h
              | pyint x => simp [PyVal.setItem, except_bind_err] at h
              | pystr x => simp [PyVal.setItem, except_bind_err] at h
              | pylist x => simp [PyVal.setItem, except_bind_err] at h
  | pynone => simp [insert_keycloak_into, PyVal.setItem, except_bind_err] at h
  | pybool x => simp [insert_keycloak_into, PyVal.setItem, except_bind_err] at h
  | pyint x => simp [insert_keycloak_into, PyVal.setItem, except_bind_err] at h
  | pystr x => simp [insert_keycloak_into, PyVal.setItem, except_bind_err] at h
  | pylist x => simp [insert_keycloak_into, PyVal.setItem, except_bind_err] at h

lemma norm_data_isDict (p : PyVal) : (norm_data p).isDict = true := by
  simp only [norm_data]
  by_cases h : (PyVal.pyOr p (PyVal.pydict [])).isDict = true
  · rw [if_pos h]; exact h
  · rw [if_neg h]; rfl

/-- On a compose mapping whose `services` already contain `"keycloak"`,
`process_file` returns `True` with the data unchanged. -/
lemma process_file_keycloak_present (env : KcEnv) (parsed : PyVal)
    (h : services_has_keycloak parsed) :
    process_file env parsed = .ok (true, parsed) := by
  obtain ⟨hd, hsv, hkc⟩ := h
  cases parsed with
  | pydict kvs =>
      have hne : kvs.isEmpty = false := by
        cases kvs with
        | nil => exact absurd rfl hsv
        | cons a l => rfl
      simp only [process_file, norm_data, PyVal.pyOr, PyVal.truthy, hne,
        Bool.not_false, if_true, PyVal.isDict, if_neg hsv, except_pure, except_pure',
        except_bind_ok, hkc]
  | pynone => exact absurd hd (by simp [PyVal.isDict])
  | pybool x => exact absurd hd (by simp [PyVal.isDict])
  | pyint x => exact absurd hd (by simp [PyVal.isDict])
  | pystr x => exact absurd hd (by simp [PyVal.isDict])
  | pylist x => exact absurd hd (by simp [PyVal.isDict])

/-- Every file `process_file` rewrites (or leaves alone) has `keycloak`
under `services`, so it satisfies the early-return premise. -/
lemma process_file_ok_services (env : KcEnv) (p : PyVal) (b : Bool) (p' : PyVal)
    (h : process_file env p = .ok (b, p')) :
    services_has_keycloak p' := by
  by_cases hsv : (norm_data p).get "services" = .pynone
  · -- `services` absent or `None`: a fresh `{}` is inserted, then the
    -- insertion branch runs on it.
    cases hnd : norm_data p with
    | pydict nkvs =>
        rw [process_file, hnd] at h
        rw [hnd] at hsv
        simp only [hsv, if_true, PyVal.setItem, except_bind_ok, except_pure, except_pure',
          PyVal.contains, List.any_nil, Bool.false_eq_true, if_false] at h
        exact (insert_keycloak_into_ok env _ _ b p' h).2
    | pynone => exact absurd (hnd ▸ norm_data_isDict p) (by simp [PyVal.isDict])
    | pybool x => exact absurd (hnd ▸ norm_data_isDict p) (by simp [PyVal.isDict])
    | pyint x => exact absurd (hnd ▸ norm_data_isDict p) (by simp [PyVal.isDict])
    | pystr x => exact absurd (hnd ▸ norm_data_isDict p) (by simp [PyVal.isDict])
    | pylist x => exact absurd (hnd ▸ norm_data_isDict p) (by simp [PyVal.isDict])
  · rw [process_file] at h
    simp only [if_neg hsv, except_pure, except_pure', except_bind_ok] at h
    cases hc : ((norm_data p).get "services").contains "keycloak" with
    | error e => rw [hc, except_bind_err] at h; exact absurd h (by simp)
    | ok kc =>
        rw [hc, except_bind_ok] at h
        cases kc with
        | true =>
            simp only [if_true] at h
            have hinj := Except.ok.inj h
            rw [Prod.mk.injEq] at hinj
            rw [← hinj.2]
            exact ⟨norm_data_isDict p, hsv, hc⟩
        | false =>
            simp only [Bool.false_eq_true, if_false] at h
            exact (insert_keycloak_into_ok env _ _ b p' h).2

/-- C8: `process_file` is idempotent through the `'keycloak' in services`
early return: a parsed compose mapping whose services already contain
`keycloak` is returned as `True` without modification, and any compose file
a successful run produced (or passed through) satisfies that premise, so a
second run on the script's own output changes nothing. -/
theorem claim_C8_keycloak_insert_idempotent (env env' : KcEnv) (parsed : PyVal)
    (h : services_has_keycloak parsed) :
    process_file env parsed = .ok (true, parsed)
    ∧ (∀ p b p', process_file env p = .ok (b, p') →
        process_file env' p' = .ok (true, p')) :=
  ⟨process_file_keycloak_present env parsed h,
   fun p b p' hp =>
     process_file_keycloak_present env' p' (process_file_ok_services env p b p' hp)⟩

/-- Witness for C8 at `kcParsedW`. -/
theorem claim_C8_keycloak_insert_idempotent_witness :
    services_has_keycloak kcParsedW
    ∧ (process_file kcEnvW kcParsedW = .ok (true, kcParsedW)
      ∧ (∀ p b p', process_file kcEnvW p = .ok (b, p') →
          process_file kcEnvW p' = .ok (true, p'))) :=
  ⟨⟨rfl, by decide, rfl⟩,
   claim_C8_keycloak_insert_idempotent kcEnvW kcEnvW kcParsedW ⟨rfl, by decide, rfl⟩⟩

/-- C10: on a parsed compose mapping whose (dict) services contain neither
`keycloak` nor `fhir-server`, `process_file` raises `KeyError` at the
unconditional `services['fhir-server']` access — the script crashes instead
of returning `False` or skipping the file. -/
theorem claim_C10_missing_fhir_server_keyerror (env : KcEnv) (parsed : PyVal)
    (hsd : (norm_services parsed).isDict = true)
    (hkc : (norm_services parsed).hasKey "keycloak" = false)
    (hfs : (norm_services parsed).hasKey "fhir-server" = false) :
    process_file env parsed = .error ("KeyError: " ++ "fhir-server") := by
  by_cases hsv : (norm_data parsed).get "services" = .pynone
  · cases hnd : norm_data parsed with
    | pydict nkvs =>
        rw [process_file, hnd]
        rw [hnd] at hsv
        simp only [hsv, if_true, PyVal.setItem, except_bind_ok, except_pure, except_pure',
          PyVal.contains, List.any_nil, Bool.false_eq_true, if_false]
        simp only [insert_keycloak_into, PyVal.setItem, except_bind_ok,
          PyVal.getItem, PyVal.lookup]
        rfl
    | pynone => exact absurd (hnd ▸ norm_data_isDict parsed) (by simp [PyVal.isDict])
    | pybool x => exact absurd (hnd ▸ norm_data_isDict parsed) (by simp [PyVal.isDict])
    | pyint x => exact absurd (hnd ▸ norm_data_isDict parsed) (by simp [PyVal.isDict])
    | pystr x => exact absurd (hnd ▸ norm_data_isDict parsed) (by simp [PyVal.isDict])
    | pylist x => exact absurd (hnd ▸ norm_data_isDict parsed) (by simp [PyVal.isDict])
  · have hns : norm_services parsed = (norm_data parsed).get "services" := by
      rw [norm_services, if_neg hsv]
    rw [hns] at hsd hkc hfs
    cases hget : (norm_data parsed).get "services" with
    | pydict skvs =>
        rw [hget] at hkc hfs
        simp only [PyVal.hasKey] at hkc hfs
        rw [process_file]
        simp only [hget]
        rw [if_neg (show PyVal.pydict skvs ≠ PyVal.pynone from fun hh => nomatch hh)]
        simp only [except_pure, except_pure', except_bind_ok, PyVal.contains, hkc,
          Bool.false_eq_true, if_false]
        simp only [insert_keycloak_into, PyVal.setItem, except_bind_ok, PyVal.getItem]
        rw [lookup_eq_none_of_any_false _ _
          (by rw [setKvs_any_ne _ _ _ _ (by decide)]; exact hfs)]
        rfl
    | pynone => exact absurd (hget ▸ hsd) (by simp [PyVal.isDict])
    | pybool x => exact absurd (hget ▸ hsd) (by simp [PyVal.isDict])
    | pyint x => exact absurd (hget ▸ hsd) (by simp [PyVal.isDict])
    | pystr x => exact absurd (hget ▸ hsd) (by simp [PyVal.isDict])
    | pylist x => exact absurd (hget ▸ hsd) (by simp [PyVal.isDict])

/-- Witness for C10 at `kcNoFhirW`. -/
theorem claim_C10_missing_fhir_server_keyerror_witness :
    ((norm_services kcNoFhirW).isDict = true
      ∧ (norm_services kcNoFhirW).hasKey "keycloak" = false
      ∧ (norm_services kcNoFhirW).hasKey "fhir-server" = false)
    ∧ process_file kcEnvW kcNoFhirW = .error ("KeyError: " ++ "fhir-server") :=
  ⟨⟨rfl, rfl, rfl⟩,
   claim_C10_missing_fhir_server_keyerror kcEnvW kcNoFhirW rfl rfl rfl⟩

/-- C4: the metric name each `FHIRClient` request method passes to the
underlying HTTP client is `_canonical_name(method, path[, body])` — a
function only of the method, the path, and (reaching the body only for
root-path requests, where it reads the Bundle type) the JSON body. In
particular two calls with the same method, path and body receive the same
name whatever caller-supplied keyword arguments (such as `name=` labels)
accompany them, since the `**_` signatures drop them. -/
theorem claim_C4_metric_name_ignores_caller_kwargs
    (path : String) (params body : PyVal) (kw kw' : List (String × PyVal)) :
    FHIRClient.get_name path params kw = FHIRClient.get_name path params kw'
    ∧ FHIRClient.post_name path body kw = FHIRClient.post_name path body kw'
    ∧ FHIRClient.put_name path body kw = FHIRClient.put_name path body kw'
    ∧ FHIRClient.patch_name path body kw = FHIRClient.patch_name path body kw'
    ∧ FHIRClient.get_name path params kw
        = FHIRClient.canonical_name "GET" path Option.none
    ∧ FHIRClient.post_name path body kw
        = FHIRClient.canonical_name "POST" path (some body)
    ∧ FHIRClient.put_name path body kw
        = FHIRClient.canonical_name "PUT" path (some body)
    ∧ FHIRClient.patch_name path body kw
        = FHIRClient.canonical_name "PATCH" path (some body) :=
  ⟨rfl, rfl, rfl, rfl, rfl, rfl, rfl, rfl⟩

/-- C5: `_canonical_name("POST", "", body={"resourceType": "Bundle",
"type": "transaction"})` is `"transaction"`. -/
theorem claim_C5_root_transaction_name :
    FHIRClient.canonical_name "POST" ""
      (some (.pydict [("resourceType", .pystr "Bundle"), ("type", .pystr "transaction")]))
      = "transaction" := by decide

/-- C6: `auto_detect_ports` on `"https://x"` gives `(80, 443)`, on
`"http://localhost:8080"` gives `(8080, 8443)`, and on `"http://localhost"`
gives `(80, 443)`. -/
theorem claim_C6_auto_detect_ports :
    auto_detect_ports "https://x" = (80, 443)
    ∧ auto_detect_ports "http://localhost:8080" = (8080, 8443)
    ∧ auto_detect_ports "http://localhost" = (80, 443) := by decide

/-- When the List-anchor bundle is truthy, `fetch_iop` returns it as-is
after that single request. -/
lemma fetch_iop_truthy_eq (server : Server) (pid : String) (enc : Option String)
    (ht : optTruthy (resp_json (server ⟨"List", iop_list_params pid enc⟩)) = true) :
    fetch_iop server pid enc
      = ([⟨"List", iop_list_params pid enc⟩],
         resp_json (server ⟨"List", iop_list_params pid enc⟩)) := by
  simp [fetch_iop, ht]

/-- When the List-anchor bundle is falsy, `fetch_iop` issues exactly the
List query followed by the two tag-based fallback searches. -/
lemma fetch_iop_fallback_trace (server : Server) (pid : String) (enc : Option String)
    (ht : optTruthy (resp_json (server ⟨"List", iop_list_params pid enc⟩)) = false) :
    (fetch_iop server pid enc).1
      = [⟨"List", iop_list_params pid enc⟩,
         ⟨"QuestionnaireResponse", iop_tag_params pid enc⟩,
         ⟨"Observation", iop_tag_params pid enc⟩] := by
  simp only [fetch_iop, ht, Bool.false_eq_true, if_false]
  split <;> rfl

/-- C7: with `deploy.tls.enabled` false, the generated compose maps no 443
port and mounts no PEM certificate on `haproxy`: its `ports` are exactly the
single HTTP mapping and its `volumes` exactly the single `haproxy.cfg`
mount. -/
theorem claim_C7_no_tls_single_port_and_volume (config : Config)
    (h : config.tls.enabled = false) :
    (((generate_docker_compose config).get "services").get "haproxy").get "ports"
      = .pylist [.pystr (toString (auto_detect_ports config.baseUrl).1 ++ ":80")]
    ∧ (((generate_docker_compose config).get "services").get "haproxy").get "volumes"
      = .pylist [.pystr "./haproxy.cfg:/usr/local/etc/haproxy/haproxy.cfg:ro"] := by
  constructor <;> simp [generate_docker_compose, h, PyVal.get, PyVal.lookup]

/-- Witness for C7 at `cfgNoTls`. -/
theorem claim_C7_no_tls_single_port_and_volume_witness :
    cfgNoTls.tls.enabled = false
    ∧ ((((generate_docker_compose cfgNoTls).get "services").get "haproxy").get "ports"
        = .pylist [.pystr (toString (auto_detect_ports cfgNoTls.baseUrl).1 ++ ":80")]
      ∧ (((generate_docker_compose cfgNoTls).get "services").get "haproxy").get "volumes"
        = .pylist [.pystr "./haproxy.cfg:/usr/local/etc/haproxy/haproxy.cfg:ro"]) :=
  ⟨rfl, claim_C7_no_tls_single_port_and_volume cfgNoTls rfl⟩

/-- C9: a loaded config mapping that lacks a required top-level key makes
`load_config` raise `ValueError` naming the (first) missing field, so
`main` exits 1; in general `main` maps any exception from its `try:` body
to exit code 1 and exits 0 when the body succeeds. -/
theorem claim_C9_missing_field_and_exit_codes
    (config : PyVal) (argv : List String) (hlen : 2 ≤ argv.length)
    (f : String) (hf : f ∈ required_fields)
    (hmiss : config.contains f = .ok false) :
    (∃ f', f' ∈ required_fields ∧ config.contains f' = .ok false ∧
        load_config config = .error ("ValueError: Missing required field: " ++ f'))
    ∧ main_exit argv config = 1
    ∧ (∀ c : PyVal, ∀ v, main_try_body c = .ok v → main_exit argv c = 0)
    ∧ (∀ c : PyVal, ∀ e, main_try_body c = .error e → main_exit argv c = 1) := by
  have hnl : ¬argv.length < 2 := Nat.not_lt.2 hlen
  have hok : ∀ k : String, ∃ b, config.contains k = Except.ok b := by
    intro k
    cases config with
    | pydict kvs => exact ⟨_, rfl⟩
    | pylist xs => exact ⟨_, rfl⟩
    | pystr s => exact ⟨_, rfl⟩
    | pynone => simp [PyVal.contains] at hmiss
    | pybool b => simp [PyVal.contains] at hmiss
    | pyint n => simp [PyVal.contains] at hmiss
  have hfirst : ∃ f', f' ∈ required_fields ∧ config.contains f' = .ok false ∧
      load_config config = .error ("ValueError: Missing required field: " ++ f') := by
    obtain ⟨b1, h1⟩ := hok "app"
    cases b1 with
    | false =>
        exact ⟨"app", by simp [required_fields],
          h1, by simp only [load_config, required_fields, check_required, h1]; rfl⟩
    | true =>
        obtain ⟨b2, h2⟩ := hok "couchbase"
        cases b2 with
        | false =>
            exact ⟨"couchbase", by simp [required_fields],
              h2, by simp only [load_config, required_fields, check_required, h1, h2]; rfl⟩
        | true =>
            obtain ⟨b3, h3⟩ := hok "admin"
            cases b3 with
            | false =>
                exact ⟨"admin", by simp [required_fields],
                  h3, by simp only [load_config, required_fields, check_required, h1, h2, h3]; rfl⟩
            | true =>
                obtain ⟨b4, h4⟩ := hok "deploy"
                cases b4 with
                | false =>
                    exact ⟨"deploy", by simp [required_fields], h4,
                      by simp only [load_config, required_fields, check_required, h1, h2, h3, h4]; rfl⟩
                | true =>
                    exfalso
                    simp only [required_fields, List.mem_cons, List.mem_singleton,
                      List.not_mem_nil, or_false] at hf
                    rcases hf with rfl | rfl | rfl | rfl
                    · rw [h1] at hmiss; exact absurd (Except.ok.inj hmiss) (by simp)
                    · rw [h2] at hmiss; exact absurd (Except.ok.inj hmiss) (by simp)
                    · rw [h3] at hmiss; exact absurd (Except.ok.inj hmiss) (by simp)
                    · rw [h4] at hmiss; exact absurd (Except.ok.inj hmiss) (by simp)
  refine ⟨hfirst, ?_, ?_, ?_⟩
  · obtain ⟨f', _, _, hload⟩ := hfirst
    simp only [main_exit, main_try_body, hload, if_neg hnl]
    rfl
  · intro c v h
    simp [main_exit, hnl, h]
  · intro c e h
    simp [main_exit, hnl, h]

/-- Witness for C9: a config mapping with only `app` present, so
`couchbase` is missing. -/
theorem claim_C9_missing_field_and_exit_codes_witness :
    (2 ≤ (["generate.py", "config.yaml"] : List String).length
      ∧ "couchbase" ∈ required_fields
      ∧ (PyVal.pydict [("app", .pydict [])]).contains "couchbase" = .ok false)
    ∧ ((∃ f', f' ∈ required_fields
          ∧ (PyVal.pydict [("app", .pydict [])]).contains f' = .ok false
          ∧ load_config (.pydict [("app", .pydict [])])
              = .error ("ValueError: Missing required field: " ++ f'))
        ∧ main_exit ["generate.py", "config.yaml"] (.pydict [("app", .pydict [])]) = 1
        ∧ (∀ c : PyVal, ∀ v, main_try_body c = .ok v
            → main_exit ["generate.py", "config.yaml"] c = 0)
        ∧ (∀ c : PyVal, ∀ e, main_try_body c = .error e
            → main_exit ["generate.py", "config.yaml"] c = 1)) :=
  ⟨⟨by decide, by decide, rfl⟩,
    claim_C9_missing_field_and_exit_codes (.pydict [("app", .pydict [])])
      ["generate.py", "config.yaml"] (by decide) "couchbase" (by decide) rfl⟩

/-- Invariant of the `_process_bundle_entries` loop: the merged entries'
patient ids stay pairwise distinct, and every merged id is in `seen_ids`. -/
lemma pbe_go_inv (es : List PyVal) : ∀ merged seen : List PyVal,
    ((merged.map entry_pid).Nodup ∧ ∀ x ∈ merged.map entry_pid, x ∈ seen) →
    (((pbe_go es merged seen).1.map entry_pid).Nodup ∧
      ∀ x ∈ (pbe_go es merged seen).1.map entry_pid, x ∈ (pbe_go es merged seen).2) := by
  induction es with
  | nil => intro merged seen h; exact h
  | cons e rest ih =>
      intro merged seen h
      simp only [pbe_go]
      split
      · split
        · rename_i hc
          apply ih
          have hpid : entry_pid e ∉ merged.map entry_pid :=
            fun hm => hc.2 (h.2 _ hm)
          constructor
          · simp only [List.map_append, List.map_cons, List.map_nil]
            exact h.1.append (List.nodup_singleton _)
              (List.disjoint_singleton.2 (by exact hpid))
          · intro x hx
            simp only [List.map_append, List.map_cons, List.map_nil,
              List.mem_append, List.mem_singleton] at hx
            rcases hx with hx | hx
            · exact List.mem_append_left _ (h.2 _ hx)
            · exact List.mem_append_right _ (by simp [hx, entry_pid])
        · exact ih merged seen h
      · exact ih merged seen h

/-- Invariant of the `_extract_patient_entries` loop. -/
lemma epe_go_nodup (es : List PyVal) : ∀ merged seen : List PyVal,
    ((merged.map entry_pid).Nodup ∧ ∀ x ∈ merged.map entry_pid, x ∈ seen) →
    ((epe_go es merged seen).map entry_pid).Nodup := by
  induction es with
  | nil => intro merged seen h; exact h.1
  | cons e rest ih =>
      intro merged seen h
      simp only [epe_go]
      split
      · exact ih _ _ (pbe_go_inv _ merged seen h)
      · exact ih merged seen h

/-- The merged patient entries of `_extract_patient_entries` contain at
most one entry per patient id. -/
lemma extract_patient_entries_nodup (b : PyVal) :
    ((extract_patient_entries b).map entry_pid).Nodup :=
  epe_go_nodup _ [] [] ⟨List.nodup_nil, by simp⟩

/-- C1 counterexample: on the fallback path with a non-empty
QuestionnaireResponse search, the collection bundle's entries are *not* the
union (concatenation) of the per-type search results' entries: the code
re-wraps each found resource as `{"resource": res}`, dropping the entry's
other keys (here the searchset entry's `fullUrl`). -/
theorem claim_C1_counterexample :
    optTruthy (resp_json (cexServerC1 ⟨"List", iop_list_params "p1" Option.none⟩)) = false
    ∧ collect_entries (iop_fallback_qr_bundle cexServerC1 "p1" Option.none) ≠ []
    ∧ (fetch_iop cexServerC1 "p1" Option.none).2
        = some (.pydict [("resourceType", .pystr "Bundle"), ("type", .pystr "collection"),
            ("entry", .pylist [.pydict [("resource",
              .pydict [("resourceType", .pystr "QuestionnaireResponse"),
                ("id", .pystr "q1")])]])])
    ∧ PyVal.pylist [.pydict [("resource",
        .pydict [("resourceType", .pystr "QuestionnaireResponse"), ("id", .pystr "q1")])]]
      ≠ .pylist
          ((PyVal.pyOr ((iop_fallback_qr_bundle cexServerC1 "p1" Option.none).get "entry")
              (.pylist [])).iterList
            ++ (PyVal.pyOr ((iop_fallback_obs_bundle cexServerC1 "p1" Option.none).get "entry")
              (.pylist [])).iterList) := by
  decide

/-- C1 (amended): when the fallback path is taken and at least one
tag-filtered per-type search found a resource, `fetch_iop` returns a
`Bundle` of type `collection` whose entries are, in order, one
`{"resource": r}` wrapper for each entry of the QuestionnaireResponse
search then the Observation search that is a dict with a truthy
`"resource"` — the resources of the per-type results, not their entry
objects verbatim; and the patient batch merge
(`_extract_patient_entries`) keeps at most one entry per Patient id. -/
theorem claim_C1_amended_fallback_collection (server : Server) (pid : String)
    (enc : Option String) (b : PyVal)
    (hfb : optTruthy (resp_json (server ⟨"List", iop_list_params pid enc⟩)) = false)
    (hne : collect_entries (iop_fallback_qr_bundle server pid enc)
        ++ collect_entries (iop_fallback_obs_bundle server pid enc) ≠ []) :
    (fetch_iop server pid enc).2
      = some (.pydict [("resourceType", .pystr "Bundle"), ("type", .pystr "collection"),
          ("entry", .pylist (collect_entries (iop_fallback_qr_bundle server pid enc)
            ++ collect_entries (iop_fallback_obs_bundle server pid enc)))])
    ∧ ((extract_patient_entries b).map entry_pid).Nodup := by
  constructor
  · have hne' : (collect_entries (iop_fallback_qr_bundle server pid enc)
        ++ collect_entries (iop_fallback_obs_bundle server pid enc)).isEmpty = false := by
      cases hl : collect_entries (iop_fallback_qr_bundle server pid enc)
          ++ collect_entries (iop_fallback_obs_bundle server pid enc) with
      | nil => exact absurd hl hne
      | cons a l => rfl
    simp only [fetch_iop, hfb, Bool.false_eq_true, if_false,
      iop_fallback_qr_bundle, iop_fallback_obs_bundle] at hne' ⊢
    rw [hne']
    rfl
  · exact extract_patient_entries_nodup b

/-- Witness for C1 (amended) at `cexServerC1`. -/
theorem claim_C1_amended_fallback_collection_witness :
    (optTruthy (resp_json (cexServerC1 ⟨"List", iop_list_params "p1" Option.none⟩)) = false
      ∧ collect_entries (iop_fallback_qr_bundle cexServerC1 "p1" Option.none)
          ++ collect_entries (iop_fallback_obs_bundle cexServerC1 "p1" Option.none) ≠ [])
    ∧ ((fetch_iop cexServerC1 "p1" Option.none).2
        = some (.pydict [("resourceType", .pystr "Bundle"), ("type", .pystr "collection"),
            ("entry", .pylist (collect_entries (iop_fallback_qr_bundle cexServerC1 "p1" Option.none)
              ++ collect_entries (iop_fallback_obs_bundle cexServerC1 "p1" Option.none)))])
      ∧ ((extract_patient_entries (.pydict [])).map entry_pid).Nodup) :=
  ⟨⟨by decide, by decide⟩,
    claim_C1_amended_fallback_collection cexServerC1 "p1" Option.none (.pydict [])
      (by decide) (by decide)⟩

/-- C3 counterexample: with nothing found anywhere, `fetch_iop` returns the
*first* fallback (QuestionnaireResponse) bundle — because of
`return qr_bundle or obs_bundle` — which is neither the last-fetched
(Observation) bundle nor `None`. -/
theorem claim_C3_counterexample :
    optTruthy (resp_json (cexServerC3 ⟨"List", iop_list_params "p1" Option.none⟩)) = false
    ∧ collect_entries (iop_fallback_qr_bundle cexServerC3 "p1" Option.none) = []
    ∧ collect_entries (iop_fallback_obs_bundle cexServerC3 "p1" Option.none) = []
    ∧ (fetch_iop cexServerC3 "p1" Option.none).2
        = some (iop_fallback_qr_bundle cexServerC3 "p1" Option.none)
    ∧ (fetch_iop cexServerC3 "p1" Option.none).2
        ≠ some (iop_fallback_obs_bundle cexServerC3 "p1" Option.none)
    ∧ (fetch_iop cexServerC3 "p1" Option.none).2 ≠ Option.none := by
  decide

/-- C3 (amended): when neither the List query nor any fallback search
yields entries, `fetch_iop` returns `qr_bundle or obs_bundle`: the first
fallback (QuestionnaireResponse) bundle when it parsed to a truthy mapping,
otherwise the final (Observation) fallback bundle, which may be empty; the
fallback path never returns `None`. -/
theorem claim_C3_amended_nothing_found (server : Server) (pid : String)
    (enc : Option String)
    (hfb : optTruthy (resp_json (server ⟨"List", iop_list_params pid enc⟩)) = false)
    (hempty : collect_entries (iop_fallback_qr_bundle server pid enc)
        ++ collect_entries (iop_fallback_obs_bundle server pid enc) = []) :
    (fetch_iop server pid enc).2
      = some (PyVal.pyOr (iop_fallback_qr_bundle server pid enc)
          (iop_fallback_obs_bundle server pid enc)) := by
  have hempty' : (collect_entries (iop_fallback_qr_bundle server pid enc)
      ++ collect_entries (iop_fallback_obs_bundle server pid enc)).isEmpty = true := by
    rw [hempty]; rfl
  simp only [fetch_iop, hfb, Bool.false_eq_true, if_false,
    iop_fallback_qr_bundle, iop_fallback_obs_bundle] at hempty' ⊢
  rw [hempty']
  rfl

/-- Witness for C3 (amended) at `cexServerC3`. -/
theorem claim_C3_amended_nothing_found_witness :
    (optTruthy (resp_json (cexServerC3 ⟨"List", iop_list_params "p1" Option.none⟩)) = false
      ∧ collect_entries (iop_fallback_qr_bundle cexServerC3 "p1" Option.none)
          ++ collect_entries (iop_fallback_obs_bundle cexServerC3 "p1" Option.none) = [])
    ∧ (fetch_iop cexServerC3 "p1" Option.none).2
        = some (PyVal.pyOr (iop_fallback_qr_bundle cexServerC3 "p1" Option.none)
            (iop_fallback_obs_bundle cexServerC3 "p1" Option.none)) :=
  ⟨⟨by decide, by decide⟩,
    claim_C3_amended_nothing_found cexServerC3 "p1" Option.none (by decide) (by decide)⟩

/-- C2: `fetch_iop`'s first request queries `List` with the
subject/code filters (plus `encounter` exactly when one was given, i.e.
truthy) and `_include=List:item`; it returns that query's bundle unchanged,
issuing no further request, if and only if the parsed bundle is non-empty
("if bundle:"); only otherwise does it issue the two tag-based fallback
searches. -/
theorem claim_C2_list_anchor_first (server : Server) (pid : String)
    (enc : Option String) :
    (fetch_iop server pid enc).1.head? = some ⟨"List", iop_list_params pid enc⟩
    ∧ iop_list_params pid enc = .pydict ([
        ("subject", .pystr ("Patient/" ++ pid)),
        ("code", .pystr (FORM_TAG_SYSTEM ++ "|" ++ FORM_CODE_IOP)),
        ("_include", .pylist [.pystr "List:item"]),
        ("_count", .pyint 50)] ++
        (if encTruthy enc then
          [("encounter", .pystr ("Encounter/" ++ enc.getD ""))] else []))
    ∧ (fetch_iop server pid enc
        = ([⟨"List", iop_list_params pid enc⟩],
           resp_json (server ⟨"List", iop_list_params pid enc⟩))
        ↔ optTruthy (resp_json (server ⟨"List", iop_list_params pid enc⟩)) = true)
    ∧ (optTruthy (resp_json (server ⟨"List", iop_list_params pid enc⟩)) = false →
        (fetch_iop server pid enc).1
          = [⟨"List", iop_list_params pid enc⟩,
             ⟨"QuestionnaireResponse", iop_tag_params pid enc⟩,
             ⟨"Observation", iop_tag_params pid enc⟩]) := by
  refine ⟨?_, ?_, ?_, fun ht => fetch_iop_fallback_trace server pid enc ht⟩
  · by_cases h : optTruthy (resp_json (server ⟨"List", iop_list_params pid enc⟩))
    · rw [fetch_iop_truthy_eq server pid enc h]
      rfl
    · rw [fetch_iop_fallback_trace server pid enc (by simpa using h)]
      rfl
  · cases enc with
    | none => simp [iop_list_params, encTruthy]
    | some e =>
        by_cases he : e = "" <;> simp [iop_list_params, encTruthy, he]
  · constructor
    · intro h
      by_cases ht : optTruthy (resp_json (server ⟨"List", iop_list_params pid enc⟩))
      · exact ht
      · have h3 := fetch_iop_fallback_trace server pid enc (by simpa using ht)
        rw [h] at h3
        simp at h3
    · intro ht
      exact fetch_iop_truthy_eq server pid enc ht
